import Mathlib

/-!
# Command Dispatch & Linked-Identity Verification Engine — verification

Shallow embedding of the Telegram bot framework sources:
- `api/telegram/webhook.ts` (command router, user management, command handlers)
- `api/telegram/verify-link.ts` (wallet-link verification)
- the price-alert cron job (`api/cron/check-alerts.ts`)
- `database/schema.sql` (table shapes and uniqueness constraints)

External collaborators (Telegram transport, Supabase store, price feed,
chain RPC, the ethers signature recovery and the crypto random generator)
are modelled as explicit parameters; the persistent store is modelled as
in-memory lists of rows, one list per table.  Outbound messages are
modelled as constructor-tagged `Reply` values (message formatting is out
of scope per the specification, §1 non-goals).  Timestamps are integer
epoch milliseconds.
-/

/-! ## JavaScript string primitives, modelled on `List Char` / `String` -/

/-- Whitespace test used by JavaScript `trim` (restricted to the ASCII
whitespace actually occurring in chat text). -/
def isWsChar (c : Char) : Bool :=
  c = ' ' || c = '\t' || c = '\n' || c = '\r'

/-- Models JavaScript `toLowerCase` on a single character, restricted to
ASCII (all command names, codes and addresses in the system are ASCII). -/
def asciiLower (c : Char) : Char :=
  match c with
  | 'A' => 'a' | 'B' => 'b' | 'C' => 'c' | 'D' => 'd' | 'E' => 'e'
  | 'F' => 'f' | 'G' => 'g' | 'H' => 'h' | 'I' => 'i' | 'J' => 'j'
  | 'K' => 'k' | 'L' => 'l' | 'M' => 'm' | 'N' => 'n' | 'O' => 'o'
  | 'P' => 'p' | 'Q' => 'q' | 'R' => 'r' | 'S' => 's' | 'T' => 't'
  | 'U' => 'u' | 'V' => 'v' | 'W' => 'w' | 'X' => 'x' | 'Y' => 'y'
  | 'Z' => 'z'
  | c => c

/-- Models JavaScript `toUpperCase` on a single character, restricted to
ASCII. -/
def asciiUpper (c : Char) : Char :=
  match c with
  | 'a' => 'A' | 'b' => 'B' | 'c' => 'C' | 'd' => 'D' | 'e' => 'E'
  | 'f' => 'F' | 'g' => 'G' | 'h' => 'H' | 'i' => 'I' | 'j' => 'J'
  | 'k' => 'K' | 'l' => 'L' | 'm' => 'M' | 'n' => 'N' | 'o' => 'O'
  | 'p' => 'P' | 'q' => 'Q' | 'r' => 'R' | 's' => 'S' | 't' => 'T'
  | 'u' => 'U' | 'v' => 'V' | 'w' => 'W' | 'x' => 'X' | 'y' => 'Y'
  | 'z' => 'Z'
  | c => c

/-- Models JavaScript `String.prototype.toLowerCase` (ASCII). -/
def jsToLowerCase (s : String) : String :=
  String.mk (s.data.map asciiLower)

/-- Models JavaScript `String.prototype.toUpperCase` (ASCII). -/
def jsToUpperCase (s : String) : String :=
  String.mk (s.data.map asciiUpper)

/-- Models JavaScript `String.prototype.trim` on the character list. -/
def jsTrimL (l : List Char) : List Char :=
  ((l.dropWhile isWsChar).reverse.dropWhile isWsChar).reverse

/-- Models JavaScript `String.prototype.trim`. -/
def jsTrim (s : String) : String :=
  String.mk (jsTrimL s.data)

/-- Models JavaScript `text.split(' ')`: split at every single space
character; adjacent spaces produce empty fields; the result is never
empty (`"".split(' ')` is `[""]`). -/
def splitOnSp : List Char → List (List Char)
  | [] => [[]]
  | c :: cs =>
    match splitOnSp cs with
    | [] => [[]]
    | g :: gs => if c = ' ' then [] :: g :: gs else (c :: g) :: gs

/-- Models JavaScript `parts.join(' ')`. -/
def joinSp : List (List Char) → List Char
  | [] => []
  | [g] => g
  | g :: gs => g ++ ' ' :: joinSp gs

/-- The characters of a list strictly before its first space. -/
def beforeSp : List Char → List Char
  | [] => []
  | c :: cs => if c = ' ' then [] else c :: beforeSp cs

/-- The characters of a list strictly after its first space ([] when the
list contains no space). -/
def afterFirstSp : List Char → List Char
  | [] => []
  | c :: cs => if c = ' ' then cs else afterFirstSp cs

/-- Models JavaScript `s.startsWith(pre)`. -/
def jsStartsWith (s pre : String) : Bool :=
  pre.data.isPrefixOf s.data

/-- Whether a character list begins with the given character; models
JavaScript `text.startsWith(c)` for a one-character prefix. -/
def startsWithChar (c : Char) : List Char → Bool
  | [] => false
  | d :: _ => d = c

/-- Models JavaScript `args.split(' ')` at the `String` level. -/
def jsSplitSp (s : String) : List String :=
  (splitOnSp s.data).map String.mk

/-- Models JavaScript `parts.join(' ')` at the `String` level. -/
def jsJoinSp (l : List String) : String :=
  String.mk (joinSp (l.map String.data))

/-- Digit value of an ASCII digit character. -/
def digVal (c : Char) : Option Nat :=
  if c.isDigit then some (c.toNat - '0'.toNat) else none

/-- Read a nonempty all-digit character list as a natural number. -/
def readNat (cs : List Char) : Option Nat :=
  if cs.isEmpty then none
  else cs.foldl (fun acc c =>
    match acc, digVal c with
    | some n, some d => some (n * 10 + d)
    | _, _ => none) (some 0)

/-- Variant of `readNat` with empty input reading as 0 (for the integer part of
`".5"` and the fractional part of `"1."`). -/
def readNatOr0 (cs : List Char) : Nat :=
  match readNat cs with
  | some n => n
  | none => 0

/-- Models the JavaScript `parseFloat` builtin, restricted to plain
decimal numerals (optional sign, digits, optional `.` and fraction
digits); all other inputs give `none`, modelling `NaN`.  Values are
exact rationals, matching the spec's fixed-point reading of
`DECIMAL(20,10)` prices. -/
def parseFloatQ (s : String) : Option ℚ :=
  let cs := s.data
  let signed : Bool × List Char :=
    match cs with
    | '-' :: rest => (true, rest)
    | '+' :: rest => (false, rest)
    | _ => (false, cs)
  let neg := signed.1
  let body := signed.2
  let intPart := body.takeWhile Char.isDigit
  let rest := body.dropWhile Char.isDigit
  match rest with
  | [] =>
    (readNat intPart).map (fun n => if neg then -(n : ℚ) else (n : ℚ))
  | '.' :: fracs =>
    if fracs.all Char.isDigit && !(intPart.isEmpty && fracs.isEmpty) then
      let q : ℚ := mkRat (readNatOr0 intPart * 10 ^ fracs.length + readNatOr0 fracs) (10 ^ fracs.length)
      some (if neg then -q else q)
    else none
  | _ => none

/-- Models the JavaScript `parseInt` builtin, restricted to plain decimal
integer numerals; other inputs give `none`, modelling `NaN`. -/
def parseIntJS (s : String) : Option Int :=
  let cs := s.data
  match cs with
  | '-' :: rest => (readNat rest).map (fun n => -(n : Int))
  | '+' :: rest => (readNat rest).map (fun n => (n : Int))
  | _ => (readNat cs).map (fun n => (n : Int))

/-! ## Command parsing (webhook.ts lines 644-646)

`const [command, ...argParts] = text.split(' ');`
`const args = argParts.join(' ');`
`const cmd = command.toLowerCase();` -/

/-- The router's parse of an (already trimmed) message text into the
command name and the argument string, translated from webhook.ts lines
644-646. -/
def parseCommand (text : String) : String × String :=
  match splitOnSp text.data with
  | [] => ("", "")
  | c :: rest => (String.mk (c.map asciiLower), String.mk (joinSp rest))

/-- Modelled from the spec's words (§4.1 parsing), for comparison with
`parseCommand`: split on the first whitespace run; the head token,
case-folded, is the command name; the remainder, trimmed, is the
argument string. -/
def specParseCommand (text : String) : String × String :=
  let head := text.data.takeWhile (fun c => !isWsChar c)
  let rest := text.data.dropWhile (fun c => !isWsChar c)
  (String.mk (head.map asciiLower), String.mk (jsTrimL rest))

/-! ## Data model (database/schema.sql) -/

/-- A row of `telegram_users` (schema.sql lines 7-18, matching the
`TelegramUser` interface of webhook.ts lines 58-69). -/
structure TgUser where
  telegram_id : Int
  wallet_address : Option String := none
  username : Option String := none
  link_code : Option String := none
  link_code_expires : Option Int := none
  linked_at : Option Int := none
  referral_code : Option String := none
  referred_by : Option Int := none
  notifications_enabled : Bool := true
  created_at : Int := 0
deriving Repr, DecidableEq

/-- A row of `telegram_price_alerts` (schema.sql lines 27-35).  The
`DECIMAL(20,10)` target price is modelled as an exact rational. -/
structure PriceAlert where
  id : Int
  telegram_id : Int
  alert_type : String
  target_price : ℚ
  triggered : Bool := false
  triggered_at : Option Int := none
  created_at : Int := 0
deriving Repr, DecidableEq

/-- A row of `telegram_watchlist` (schema.sql lines 43-50); the pair
`(telegram_id, wallet_address)` is UNIQUE. -/
structure WatchEntry where
  telegram_id : Int
  wallet_address : String
  nickname : Option String := none
deriving Repr, DecidableEq

/-- A row of `telegram_referrals` (schema.sql lines 58-66);
`referred_telegram_id` is UNIQUE. -/
structure ReferralEdge where
  referrer_telegram_id : Int
  referred_telegram_id : Int
  referral_code : String
  status : String
  completed_at : Option Int := none
deriving Repr, DecidableEq

/-- A row of `telegram_support_tickets` (schema.sql lines 74-82). -/
structure SupportTicket where
  telegram_id : Int
  subject : String
  message : String
deriving Repr, DecidableEq

/-- The persistent store: one list of rows per table. -/
structure Store where
  users : List TgUser := []
  alerts : List PriceAlert := []
  watchlist : List WatchEntry := []
  referrals : List ReferralEdge := []
  tickets : List SupportTicket := []
deriving Repr, DecidableEq

/-! ## Store operations

Each operation models one Supabase call of the source.  Lookups with
`.single()` succeed exactly when the filter matches exactly one row
(PostgREST returns an error, surfaced to the caller as a null row,
otherwise). -/

/-- Models `.from('telegram_users').select('*').eq('telegram_id', id).single()`. -/
def findUserById (users : List TgUser) (tid : Int) : Option TgUser :=
  match users.filter (fun u => u.telegram_id == tid) with
  | [u] => some u
  | _ => none

/-- Models `.from('telegram_users').select(..).eq('referral_code', code).single()`. -/
def findUserByReferralCode (users : List TgUser) (code : String) : Option TgUser :=
  match users.filter (fun u => u.referral_code == some code) with
  | [u] => some u
  | _ => none

/-- Models `.from('telegram_users').select('*').eq('link_code', code).single()`. -/
def findUserByLinkCode (users : List TgUser) (code : String) : Option TgUser :=
  match users.filter (fun u => u.link_code == some code) with
  | [u] => some u
  | _ => none

/-- Models `.from('telegram_users').update(f ..).eq('telegram_id', tid)`:
apply the field update to every row whose key matches. -/
def updateUser (s : Store) (tid : Int) (f : TgUser → TgUser) : Store :=
  { s with users := s.users.map (fun u => if u.telegram_id == tid then f u else u) }

/-- Models `.from('telegram_referrals').insert(edge)`: the insert respects the
UNIQUE constraint on `referred_telegram_id` (schema.sql line 61) — a
violating insert errors and leaves the table unchanged (the source
ignores the returned error). -/
def insertReferral (s : Store) (e : ReferralEdge) : Store :=
  if s.referrals.any (fun r => r.referred_telegram_id == e.referred_telegram_id) then s
  else { s with referrals := s.referrals ++ [e] }

/-- The count query of handleAlert (webhook.ts lines 456-460):
`.from('telegram_price_alerts').select(count).eq('telegram_id', tid).eq('triggered', false)` -/
def countActiveAlerts (s : Store) (tid : Int) : Nat :=
  (s.alerts.filter (fun a => a.telegram_id == tid && a.triggered == false)).length

/-- The count query of handleWatch (webhook.ts lines 524-527):
`.from('telegram_watchlist').select(count).eq('telegram_id', tid)` -/
def countWatchlist (s : Store) (tid : Int) : Nat :=
  (s.watchlist.filter (fun w => w.telegram_id == tid)).length

/-- Models the watchlist upsert of handleWatch (webhook.ts line 534):
modelled as a merge on the UNIQUE `(telegram_id, wallet_address)` key
(schema.sql line 49) — update the nickname of an existing row, insert
otherwise. -/
def upsertWatch (s : Store) (tid : Int) (addr : String) (nick : Option String) : Store :=
  if s.watchlist.any (fun w => w.telegram_id == tid && w.wallet_address == addr) then
    { s with watchlist := s.watchlist.map (fun w =>
        if w.telegram_id == tid && w.wallet_address == addr then
          { w with nickname := nick }
        else w) }
  else
    { s with watchlist := s.watchlist ++ [{ telegram_id := tid, wallet_address := addr, nickname := nick }] }

/-- Models `.from('telegram_price_alerts').delete().eq('id', id)`. -/
def removeAlertById (s : Store) (aid : Int) : Store :=
  { s with alerts := s.alerts.filter (fun a => !(a.id == aid)) }

/-- Models `.from('telegram_watchlist').delete().eq('telegram_id', tid).eq('wallet_address', addr)`. -/
def removeWatch (s : Store) (tid : Int) (addr : String) : Store :=
  { s with watchlist := s.watchlist.filter (fun w => !(w.telegram_id == tid && w.wallet_address == addr)) }

/-! ## Outbound messages and external collaborators -/

/-- One outbound transport action, tagged by which handler reply it is;
message formatting is out of scope (spec §1), so each constructor carries
only the data the reply depends on. -/
inductive Reply
  | serviceUnavailable
  | welcome (linked : Bool)
  | helpText
  | alreadyLinked (addr : String)
  | linkIssued (code : String)
  | noWalletLinked
  | walletUnlinked
  | notifyToggled (enabled : Bool)
  | portfolioView (balance : String)
  | stakingNotConfigured
  | stakingFailed
  | stakingView (staked rewards : String)
  | priceUnavailable
  | priceView (price change24h volume24h marketCap : ℚ)
  | gasView (gwei : String)
  | gasUnavailable
  | convertUsage
  | convertView (amount : ℚ)
  | alertUsage
  | alertInvalid
  | maxAlerts
  | alertSet (ty : String) (price : ℚ)
  | noActiveAlerts
  | alertsList (alerts : List PriceAlert)
  | alertNotFound
  | alertDeleted
  | watchUsage
  | maxWatch
  | watching (label : String)
  | watchlistEmpty
  | watchlistView (entries : List WatchEntry)
  | unwatchUsage
  | unwatchRemoved
  | referLink (code : Option String)
  | referralCount (n : Nat)
  | contractView
  | faqView
  | supportUsage
  | supportSubmitted
  | unknownCommand
deriving Repr, DecidableEq

/-- Price-feed snapshot (price plus 24h figures) returned by the dexscreener collaborator
(webhook.ts getTokenPrice). -/
structure PriceData where
  price : ℚ
  change24h : ℚ
  volume24h : ℚ
  marketCap : ℚ
deriving Repr, DecidableEq

/-- Token balance returned by the chain-RPC collaborator
(webhook.ts getTokenBalance). -/
structure TokenBalance where
  balance : String
  raw : Int
deriving Repr, DecidableEq

/-- Staking data returned by the chain-RPC collaborator
(webhook.ts getStakingData). -/
structure StakingData where
  staked : String
  rewards : String
deriving Repr, DecidableEq

/-- The external collaborators and ambient values of one webhook
invocation: the clock, the crypto random generator (one referral code,
one link code and one alert row id are drawn at most once per
invocation), the static configuration, and the read-only feed/RPC
shims.  All are out-of-scope collaborators per spec §1. -/
structure BotEnv where
  now : Int
  newReferralCode : String
  newLinkCode : String
  newAlertId : Int
  stakingConfigured : Bool := true
  priceData : Option PriceData := none
  gasPrice : Option String := none
  tokenBalance : String → TokenBalance := fun _ => { balance := "0", raw := 0 }
  stakingData : String → Option StakingData := fun _ => none

/-! ## User management (webhook.ts lines 135-169) -/

/-- Embeds `getOrCreateUser`: look the sender up by primary key; refresh
the display handle if it changed (the returned snapshot is the stale row,
as in the source); create the row lazily for an unseen sender.  The
store itself is assumed available (a null Supabase handle or failed
insert is a collaborator failure with no state machine behind it). -/
def getOrCreateUser (ext : BotEnv) (s : Store) (tid : Int) (username : Option String) :
    Store × TgUser :=
  match findUserById s.users tid with
  | some existing =>
    match username with
    | some un =>
      if un ≠ "" && existing.username ≠ some un then
        (updateUser s tid (fun u => { u with username := some un }), existing)
      else (s, existing)
    | none => (s, existing)
  | none =>
    let newUser : TgUser :=
      { telegram_id := tid
        username := match username with
                    | some un => if un = "" then none else some un
                    | none => none
        referral_code := some ext.newReferralCode
        notifications_enabled := true
        created_at := ext.now }
    ({ s with users := s.users ++ [newUser] }, newUser)

/-! ## Command handlers (webhook.ts lines 253-610)

Each handler is translated from its source function; it receives the
sender's identity snapshot and/or id and the argument string, and
returns the store after its mutations together with the outbound
replies it sent.  JavaScript truthiness tests on nullable fields are
modelled exactly (`!x` is true for both `null` and `0`; `!s` is true
for both `null` and `""`). -/

/-- Embeds `handleStart` (lines 253-288).  `!user.referred_by` is
JavaScript truthiness: it lets the referral block run when the stored
referrer reference is null or the number 0. -/
def handleStart (ext : BotEnv) (s : Store) (user : TgUser) (args : String) :
    Store × List Reply :=
  let s1 :=
    if args ≠ "" && (match user.referred_by with
                     | none => true
                     | some r => r == 0) then
      match findUserByReferralCode s.users (jsToUpperCase args) with
      | some referrer =>
        if referrer.telegram_id ≠ user.telegram_id then
          let s' := updateUser s user.telegram_id
            (fun u => { u with referred_by := some referrer.telegram_id })
          insertReferral s'
            { referrer_telegram_id := referrer.telegram_id
              referred_telegram_id := user.telegram_id
              referral_code := jsToUpperCase args
              status := "completed"
              completed_at := some ext.now }
        else s
      | none => s
    else s
  (s1, [Reply.welcome user.wallet_address.isSome])

/-- Embeds `handleHelp` (lines 290-320). -/
def handleHelp (s : Store) : Store × List Reply :=
  (s, [Reply.helpText])

/-- Embeds `handleLink` (lines 322-340): refuse when a wallet is already
bound, otherwise set a fresh 32-character link code expiring 15 minutes
from now and reply with the link URL. -/
def handleLink (ext : BotEnv) (s : Store) (tid : Int) (user : TgUser) :
    Store × List Reply :=
  match user.wallet_address with
  | some addr => (s, [Reply.alreadyLinked addr])
  | none =>
    let s' := updateUser s tid (fun u =>
      { u with link_code := some ext.newLinkCode
               link_code_expires := some (ext.now + 15 * 60 * 1000) })
    (s', [Reply.linkIssued ext.newLinkCode])

/-- Embeds `handleUnlink` (lines 342-350). -/
def handleUnlink (s : Store) (tid : Int) (user : TgUser) : Store × List Reply :=
  match user.wallet_address with
  | none => (s, [Reply.noWalletLinked])
  | some _ =>
    let s' := updateUser s tid (fun u =>
      { u with wallet_address := none, linked_at := none })
    (s', [Reply.walletUnlinked])

/-- Embeds `handleNotify` (lines 352-358). -/
def handleNotify (s : Store) (tid : Int) (user : TgUser) : Store × List Reply :=
  let newState := !user.notifications_enabled
  let s' := updateUser s tid (fun u => { u with notifications_enabled := newState })
  (s', [Reply.notifyToggled newState])

/-- Embeds `handlePortfolio` (lines 360-377); balance and price come from
the read-only collaborators. -/
def handlePortfolio (ext : BotEnv) (s : Store) (user : TgUser) : Store × List Reply :=
  match user.wallet_address with
  | none => (s, [Reply.noWalletLinked])
  | some addr => (s, [Reply.portfolioView (ext.tokenBalance addr).balance])

/-- Embeds `handleStaking` (lines 379-397). -/
def handleStaking (ext : BotEnv) (s : Store) (user : TgUser) : Store × List Reply :=
  if !ext.stakingConfigured then (s, [Reply.stakingNotConfigured])
  else
    match user.wallet_address with
    | none => (s, [Reply.noWalletLinked])
    | some addr =>
      match ext.stakingData addr with
      | none => (s, [Reply.stakingFailed])
      | some d => (s, [Reply.stakingView d.staked d.rewards])

/-- Embeds `handlePrice` (lines 399-416). -/
def handlePrice (ext : BotEnv) (s : Store) : Store × List Reply :=
  match ext.priceData with
  | none => (s, [Reply.priceUnavailable])
  | some pd => (s, [Reply.priceView pd.price pd.change24h pd.volume24h pd.marketCap])

/-- Embeds `handleGas` (lines 418-421). -/
def handleGas (ext : BotEnv) (s : Store) : Store × List Reply :=
  match ext.gasPrice with
  | none => (s, [Reply.gasUnavailable])
  | some g => (s, [Reply.gasView g])

/-- Embeds `handleConvert` (lines 423-437): usage notice when the amount
is NaN or non-positive. -/
def handleConvert (ext : BotEnv) (s : Store) (args : String) : Store × List Reply :=
  match parseFloatQ args with
  | none => (s, [Reply.convertUsage])
  | some amount =>
    if amount ≤ 0 then (s, [Reply.convertUsage])
    else
      match ext.priceData with
      | none => (s, [Reply.priceUnavailable])
      | some _ => (s, [Reply.convertView amount])

/-- Embeds `handleAlert` (lines 439-469): parse `above|below` and the
target price, enforce the 5-active-alert quota by counting untriggered
alerts, then insert the new alert row. -/
def handleAlert (ext : BotEnv) (s : Store) (tid : Int) (args : String) :
    Store × List Reply :=
  match jsSplitSp args with
  | p0 :: p1 :: _ =>
    let alertType := jsToLowerCase p0
    match parseFloatQ p1 with
    | none => (s, [Reply.alertInvalid])
    | some targetPrice =>
      if alertType ≠ "above" && alertType ≠ "below" then (s, [Reply.alertInvalid])
      else if countActiveAlerts s tid ≥ 5 then (s, [Reply.maxAlerts])
      else
        let row : PriceAlert :=
          { id := ext.newAlertId
            telegram_id := tid
            alert_type := alertType
            target_price := targetPrice
            triggered := false
            triggered_at := none
            created_at := ext.now }
        ({ s with alerts := s.alerts ++ [row] }, [Reply.alertSet alertType targetPrice])
  | _ => (s, [Reply.alertUsage])

/-- Embeds `handleAlerts` (lines 471-491). -/
def handleAlerts (s : Store) (tid : Int) : Store × List Reply :=
  let alerts := s.alerts.filter (fun a => a.telegram_id == tid && a.triggered == false)
  if alerts.isEmpty then (s, [Reply.noActiveAlerts])
  else (s, [Reply.alertsList alerts])

/-- Embeds `handleDeleteAlert` (lines 493-510).  A NaN index slips past
the bounds test in the source and the subsequent element access throws,
which the top-level catch swallows — no reply, no mutation. -/
def handleDeleteAlert (s : Store) (tid : Int) (args : String) : Store × List Reply :=
  match parseIntJS args with
  | none => (s, [])
  | some n =>
    let index : Int := n - 1
    let alerts := s.alerts.filter (fun a => a.telegram_id == tid && a.triggered == false)
    if index < 0 || (alerts.length : Int) ≤ index then (s, [Reply.alertNotFound])
    else
      match alerts.get? index.toNat with
      | some a => (removeAlertById s a.id, [Reply.alertDeleted])
      | none => (s, [Reply.alertNotFound])

/-- Embeds `handleWatch` (lines 512-536): validate the address shape,
enforce the 10-entry quota by counting the sender's whole watchlist,
then upsert the (owner, address) row with the optional nickname. -/
def handleWatch (s : Store) (tid : Int) (args : String) : Store × List Reply :=
  match jsSplitSp args with
  | [] => (s, [Reply.watchUsage])
  | address :: restParts =>
    let nickname := let n := jsJoinSp restParts; if n = "" then none else some n
    if !jsStartsWith address "0x" || address.length ≠ 42 then (s, [Reply.watchUsage])
    else if countWatchlist s tid ≥ 10 then (s, [Reply.maxWatch])
    else
      (upsertWatch s tid (jsToLowerCase address) nickname,
       [Reply.watching (match nickname with | some n => n | none => address)])

/-- Embeds `handleWatchlist` (lines 538-558). -/
def handleWatchlist (s : Store) (tid : Int) : Store × List Reply :=
  let wallets := s.watchlist.filter (fun w => w.telegram_id == tid)
  if wallets.isEmpty then (s, [Reply.watchlistEmpty])
  else (s, [Reply.watchlistView wallets])

/-- Embeds `handleUnwatch` (lines 560-568). -/
def handleUnwatch (s : Store) (tid : Int) (args : String) : Store × List Reply :=
  if !jsStartsWith args "0x" then (s, [Reply.unwatchUsage])
  else (removeWatch s tid (jsToLowerCase args), [Reply.unwatchRemoved])

/-- Embeds `handleRefer` (lines 570-572). -/
def handleRefer (s : Store) (user : TgUser) : Store × List Reply :=
  (s, [Reply.referLink user.referral_code])

/-- Embeds `handleReferrals` (lines 574-583). -/
def handleReferrals (s : Store) (tid : Int) : Store × List Reply :=
  (s, [Reply.referralCount
        (s.referrals.filter (fun r => r.referrer_telegram_id == tid)).length])

/-- Embeds `handleContract` (lines 585-587). -/
def handleContract (s : Store) : Store × List Reply :=
  (s, [Reply.contractView])

/-- Embeds `handleFaq` (lines 589-597). -/
def handleFaq (s : Store) : Store × List Reply :=
  (s, [Reply.faqView])

/-- Embeds `handleSupport` (lines 599-610). -/
def handleSupport (s : Store) (tid : Int) (args : String) : Store × List Reply :=
  if args.length < 5 then (s, [Reply.supportUsage])
  else
    ({ s with tickets := s.tickets ++ [{ telegram_id := tid, subject := "Support", message := args }] },
     [Reply.supportSubmitted])

/-! ## Main webhook handler (webhook.ts lines 616-682) -/

/-- Embeds the `switch (cmd)` dispatch (lines 648-675): route the parsed
command to its handler; text beginning with the command prefix but
matching no case gets the fixed unknown-command notice; anything else is
silently ignored.  `text` is the trimmed message text the source tests
with `text.startsWith('/')` in the default case. -/
def dispatch (ext : BotEnv) (s : Store) (tid : Int) (user : TgUser)
    (cmd args : String) (text : List Char) : Store × List Reply :=
  match cmd with
  | "/start" => handleStart ext s user args
  | "/help" => handleHelp s
  | "/link" => handleLink ext s tid user
  | "/unlink" => handleUnlink s tid user
  | "/notify" => handleNotify s tid user
  | "/portfolio" | "/balance" => handlePortfolio ext s user
  | "/staking" => handleStaking ext s user
  | "/price" => handlePrice ext s
  | "/gas" => handleGas ext s
  | "/convert" => handleConvert ext s args
  | "/alert" => handleAlert ext s tid args
  | "/alerts" => handleAlerts s tid
  | "/deletealert" => handleDeleteAlert s tid args
  | "/watch" => handleWatch s tid args
  | "/watchlist" => handleWatchlist s tid
  | "/unwatch" => handleUnwatch s tid args
  | "/refer" => handleRefer s user
  | "/referrals" => handleReferrals s tid
  | "/contract" => handleContract s
  | "/faq" => handleFaq s
  | "/support" => handleSupport s tid args
  | _ => if startsWithChar '/' text then (s, [Reply.unknownCommand]) else (s, [])

/-- One inbound Telegram message event (the `update.message` payload the
webhook reads). -/
structure InMsg where
  chat_id : Int
  from_id : Int
  username : Option String := none
  text : Option String := none
deriving Repr, DecidableEq

/-- Embeds the webhook handler body (lines 625-677) for one inbound
update: absent or empty text is acknowledged with no dispatch
(`!update.message?.text`); otherwise the text is trimmed, the sender's
identity is resolved (created on first contact, handle refreshed), the
text is parsed into command and argument string, and the command is
dispatched. -/
def webhookStep (ext : BotEnv) (s : Store) (m : InMsg) : Store × List Reply :=
  match m.text with
  | none => (s, [])
  | some rawText =>
    if rawText = "" then (s, [])
    else
      let textL := jsTrimL rawText.data
      let resolved := getOrCreateUser ext s m.from_id m.username
      let s1 := resolved.1
      let user := resolved.2
      let parsed := parseCommand (String.mk textL)
      dispatch ext s1 m.from_id user parsed.1 parsed.2 textL

/-! ## Wallet-link verification (api/telegram/verify-link.ts) -/

/-- The response codes of the verify-link endpoint (spec §6: a small set
of distinct response codes). -/
inductive VerifyResult
  | missingFields
  | notFound
  | expired
  | badSignature
  | ok
  | recoveryError
deriving Repr, DecidableEq

/-- The canonical challenge message reconstructed from the link code
(verify-link.ts line 60). -/
def challengeMessage (code : String) : String :=
  "Link wallet to Telegram\n\nCode: " ++ code

/-- The expiry test of verify-link.ts line 55:
`user.link_code_expires && new Date(user.link_code_expires) < new Date()`
(JavaScript truthiness: a null expiry never counts as expired). -/
def linkCodeExpired (u : TgUser) (now : Int) : Bool :=
  match u.link_code_expires with
  | some exp => decide (exp < now)
  | none => false

/-- Embeds the verify-link handler body (verify-link.ts lines 36-86).
`recover` models `ethers.verifyMessage` — the elliptic-curve recovery of
the signer address from the challenge message and the signature, `none`
when the signature is structurally invalid (the source's try/catch then
reports a 500, `recoveryError` here).  Steps, as in the source: reject
missing fields; look the identity up by the exact link code; reject an
expired code without touching the row; recover and compare the signer to
the claimed address case-insensitively; on success bind the lower-cased
claimed address, stamp `linked_at`, and clear the code and its expiry
in one single-row update. -/
def verifyLink (recover : String → String → Option String) (now : Int)
    (s : Store) (code walletAddress signature : String) : Store × VerifyResult :=
  if code = "" || walletAddress = "" || signature = "" then (s, .missingFields)
  else
    match findUserByLinkCode s.users code with
    | none => (s, .notFound)
    | some user =>
      if linkCodeExpired user now then (s, .expired)
      else
        match recover (challengeMessage code) signature with
        | none => (s, .recoveryError)
        | some recovered =>
          if jsToLowerCase recovered ≠ jsToLowerCase walletAddress then
            (s, .badSignature)
          else
            let s' := updateUser s user.telegram_id (fun u =>
              { u with wallet_address := some (jsToLowerCase walletAddress)
                       linked_at := some now
                       link_code := none
                       link_code_expires := none })
            (s', .ok)

/-! ## Price-alert cron job (api/cron/check-alerts.ts) -/

/-- Embeds the trigger predicate (check-alerts lines 74-76):
`(alert.alert_type === 'above' && currentPrice >= alert.target_price) ||`
`(alert.alert_type === 'below' && currentPrice <= alert.target_price)`. -/
def shouldTrigger (alert_type : String) (target_price currentPrice : ℚ) : Bool :=
  (alert_type == "above" && currentPrice ≥ target_price) ||
  (alert_type == "below" && currentPrice ≤ target_price)

/-- One row of the sweep's load query
`select('*, telegram_users(notifications_enabled)').eq('triggered', false)`:
the alert as read at load time, joined with the owner's notification
preference (null when the joined row is absent). -/
structure AlertRow where
  alert : PriceAlert
  notifications_enabled : Option Bool
deriving Repr, DecidableEq

/-- The sweep's load query over the store. -/
def loadAlertRows (s : Store) : List AlertRow :=
  (s.alerts.filter (fun a => a.triggered == false)).map (fun a =>
    { alert := a
      notifications_enabled := (findUserById s.users a.telegram_id).map
        (fun u => u.notifications_enabled) })

/-- Embeds one iteration of the sweep's for-loop (check-alerts lines
73-93) against the store as it stands when the iteration runs: if the
loaded row satisfies the trigger predicate, run
`.update({triggered: true, triggered_at: now}).eq('id', alert.id)` —
matched by id alone — and then send the owner's notification whenever
the loaded `notifications_enabled` is not `false`
(`userSettings?.notifications_enabled !== false`).  Returns the store
after the update and whether a notification was sent. -/
def processAlert (s : Store) (row : AlertRow) (price : ℚ) (now : Int) :
    Store × Bool :=
  if shouldTrigger row.alert.alert_type row.alert.target_price price then
    let s' := { s with alerts := s.alerts.map (fun r =>
      if r.id == row.alert.id then { r with triggered := true, triggered_at := some now }
      else r) }
    if row.notifications_enabled ≠ some false then (s', true) else (s', false)
  else (s, false)

/-- Embeds one whole sweep invocation (check-alerts handler, lines
55-96): abort mutating nothing when the price fetch fails, otherwise
load the untriggered alerts once against one price snapshot and run the
loop; the result carries the observability counts (considered,
notified). -/
def checkAlertsSweep (s : Store) (fetchedPrice : Option ℚ) (now : Int) :
    Store × Option (Nat × Nat) :=
  match fetchedPrice with
  | none => (s, none)
  | some price =>
    let rows := loadAlertRows s
    let result := rows.foldl (fun acc row =>
      let step := processAlert acc.1 row price now
      (step.1, acc.2 + (if step.2 then 1 else 0))) (s, 0)
    (result.1, some (rows.length, result.2))

/-! ## Concrete instances used by counterexamples and witnesses -/

/-- C1 counterexample, store: the single alert row (id 1) is already
`triggered=true` (with `triggered_at = 5`) at the time the loop
iteration runs — the state a concurrent overlapping sweep leaves
behind. -/
def c1Store : Store :=
  { users := [{ telegram_id := 7 }]
    alerts := [{ id := 1, telegram_id := 7, alert_type := "above", target_price := 1,
                 triggered := true, triggered_at := some 5 }] }

/-- C1 counterexample, loaded row: the stale snapshot of alert 1 as the
sweep loaded it (still untriggered), owner notifications enabled. -/
def c1Row : AlertRow :=
  { alert := { id := 1, telegram_id := 7, alert_type := "above", target_price := 1 }
    notifications_enabled := some true }

/-- C4 environment: concrete collaborator values for the counterexample
and witness. -/
def c4Env : BotEnv :=
  { now := 0, newReferralCode := "REFCODE1", newLinkCode := "LINKCODE", newAlertId := 1 }

/-- C9 witness environment. -/
def c9Env : BotEnv :=
  { now := 10, newReferralCode := "R9", newLinkCode := "L9", newAlertId := 9 }

/-- C9 witness store for part (a): the sender owns code "AB". -/
def c9StoreA : Store :=
  { users := [{ telegram_id := 5, referral_code := some "AB" }] }

/-- C9 witness user for part (a). -/
def c9UserA : TgUser := { telegram_id := 5, referral_code := some "AB" }

/-- C9 witness store for part (b): participant 5 was referred by
participant 0 (JavaScript-falsy reference), the corresponding edge is
recorded, and participant 7 owns code "AB". -/
def c9StoreB : Store :=
  { users := [{ telegram_id := 0, referral_code := some "ZZ" },
              { telegram_id := 5, referral_code := some "CC", referred_by := some 0 },
              { telegram_id := 7, referral_code := some "AB" }]
    referrals := [{ referrer_telegram_id := 0, referred_telegram_id := 5,
                    referral_code := "ZZ", status := "completed" }] }

/-- C9 witness user for part (b). -/
def c9UserB : TgUser :=
  { telegram_id := 5, referral_code := some "CC", referred_by := some 0 }

/-- C7 witness environment. -/
def c7Env : BotEnv :=
  { now := 50, newReferralCode := "R7", newLinkCode := "L7", newAlertId := 99 }

/-- C7 witness: the first of participant 10's five active alerts. -/
def c7Alert : PriceAlert :=
  { id := 1, telegram_id := 10, alert_type := "above", target_price := 3 }

/-- C7 witness store: participant 10 holds exactly five active alerts. -/
def c7Store : Store :=
  { alerts := [c7Alert,
               { id := 2, telegram_id := 10, alert_type := "below", target_price := 1 },
               { id := 3, telegram_id := 10, alert_type := "above", target_price := 4 },
               { id := 4, telegram_id := 10, alert_type := "above", target_price := 5 },
               { id := 5, telegram_id := 10, alert_type := "below", target_price := 2 }] }

/-- C10 witness address (42 characters, 0x-prefixed, already
lower-cased). -/
def c10Addr : String := "0xaaaaaaaaaaaaaaaaaaaaaaaaaaaaaaaaaaaaaaaa"

/-- C10 witness store: participant 1 holds exactly ten watchlist
entries, one of which is the witness address itself. -/
def c10Store : Store :=
  { watchlist := [{ telegram_id := 1, wallet_address := c10Addr },
                  { telegram_id := 1, wallet_address := "w2" },
                  { telegram_id := 1, wallet_address := "w3" },
                  { telegram_id := 1, wallet_address := "w4" },
                  { telegram_id := 1, wallet_address := "w5" },
                  { telegram_id := 1, wallet_address := "w6" },
                  { telegram_id := 1, wallet_address := "w7" },
                  { telegram_id := 1, wallet_address := "w8" },
                  { telegram_id := 1, wallet_address := "w9" },
                  { telegram_id := 1, wallet_address := "w10" }] }

/-! ## Helper lemmas about the split/join parsing primitives -/

theorem splitOnSp_ne_nil (l : List Char) : splitOnSp l ≠ [] := by
  induction l with
  | nil => simp [splitOnSp]
  | cons c cs ih =>
    simp only [splitOnSp]
    cases h : splitOnSp cs with
    | nil => exact absurd h ih
    | cons g gs =>
      by_cases hc : c = ' ' <;> simp [hc]

theorem joinSp_splitOnSp (l : List Char) : joinSp (splitOnSp l) = l := by
  induction l with
  | nil => rfl
  | cons c cs ih =>
    simp only [splitOnSp]
    cases h : splitOnSp cs with
    | nil => exact absurd h (splitOnSp_ne_nil cs)
    | cons g gs =>
      rw [h] at ih
      by_cases hc : c = ' '
      · subst hc
        simpa [joinSp] using ih
      · simp only [hc, if_false]
        cases gs with
        | nil => simpa [joinSp] using ih
        | cons g2 t2 =>
          simp only [joinSp] at ih ⊢
          rw [List.cons_append, ih]

theorem splitOnSp_head (l : List Char) :
    (splitOnSp l).head? = some (beforeSp l) := by
  induction l with
  | nil => rfl
  | cons c cs ih =>
    simp only [splitOnSp, beforeSp]
    cases h : splitOnSp cs with
    | nil => exact absurd h (splitOnSp_ne_nil cs)
    | cons g gs =>
      rw [h] at ih
      simp only [List.head?, Option.some.injEq] at ih
      by_cases hc : c = ' ' <;> simp [hc, ih]

theorem joinSp_splitOnSp_tail (l : List Char) :
    joinSp (splitOnSp l).tail = afterFirstSp l := by
  induction l with
  | nil => rfl
  | cons c cs ih =>
    simp only [splitOnSp, afterFirstSp]
    cases h : splitOnSp cs with
    | nil => exact absurd h (splitOnSp_ne_nil cs)
    | cons g gs =>
      rw [h] at ih
      simp only [List.tail_cons] at ih
      by_cases hc : c = ' '
      · have := joinSp_splitOnSp cs
        rw [h] at this
        simp [hc, this]
      · simp [hc, ih]

/-- The router's parse, characterized: the command is the text up to the
first space, lower-cased; the argument string is everything after the
first space, unmodified. -/
theorem parseCommand_eq (text : String) :
    parseCommand text =
      (String.mk ((beforeSp text.data).map asciiLower),
       String.mk (afterFirstSp text.data)) := by
  unfold parseCommand
  cases h : splitOnSp text.data with
  | nil => exact absurd h (splitOnSp_ne_nil _)
  | cons g gs =>
    have h1 := splitOnSp_head text.data
    have h2 := joinSp_splitOnSp_tail text.data
    rw [h] at h1 h2
    simp only [List.head?, Option.some.injEq] at h1
    simp only [List.tail_cons] at h2
    dsimp only
    rw [h1, h2]

/-! ## Claim C5 — router parsing -/

/-- C5 counterexample: the router does not split on the first whitespace
run with a trimmed remainder.  On "/a  b" (two spaces) the code's
argument string keeps the leading space; on a tab-separated "/c e" the
code does not split at all, so the whole text (tab included) becomes the
command name. -/
theorem parseCommand_spec_mismatch_cex :
    parseCommand "/a  b" ≠ specParseCommand "/a  b"
    ∧ parseCommand "/a  b" = ("/a", " b")
    ∧ specParseCommand "/a  b" = ("/a", "b")
    ∧ parseCommand "/c\te" ≠ specParseCommand "/c\te"
    ∧ parseCommand "/c\te" = ("/c\te", "")
    ∧ specParseCommand "/c\te" = ("/c", "e") := by decide

/-- C5 (amended): the router splits at the first space character (not at
a whitespace run): the head, lower-cased, becomes the command name, and
everything after the first space — not trimmed — becomes the argument
string passed to the handler. -/
theorem parseCommand_single_space_split (text : String) :
    parseCommand text =
      (jsToLowerCase (String.mk (beforeSp text.data)),
       String.mk (afterFirstSp text.data)) := by
  rw [parseCommand_eq]
  rfl

/-! ## Claim C6 — alert trigger predicate inclusivity -/

/-- C6: the trigger predicate is inclusive at the boundary: an `above`
alert triggers exactly when the current price is ≥ the target, a `below`
alert exactly when it is ≤ the target; in particular both directions
trigger with target 1.0 at price exactly 1.0. -/
theorem shouldTrigger_inclusive (target price : ℚ) :
    shouldTrigger "above" target price = decide (price ≥ target)
    ∧ shouldTrigger "below" target price = decide (price ≤ target)
    ∧ shouldTrigger "above" 1 1 = true
    ∧ shouldTrigger "below" 1 1 = true := by
  have hA : (("above" : String) == "above") = true := rfl
  have hAB : (("above" : String) == "below") = false := rfl
  have hBA : (("below" : String) == "above") = false := rfl
  have hB : (("below" : String) == "below") = true := rfl
  refine ⟨?_, ?_, by decide, by decide⟩
  · simp [shouldTrigger, hA, hAB]
  · simp [shouldTrigger, hBA, hB]

/-! ## Claim C1 — the sweep's per-alert update and notification gating -/

/-- C1 counterexample: with the row already `triggered=true` at update
time, the claim requires the iteration to change nothing and send
nothing; the code's update matches by id alone (so it still rewrites the
row, changing `triggered_at` from 5 to 9) and the notification is sent
anyway. -/
theorem processAlert_not_conditional_cex :
    c1Store.alerts = [{ id := 1, telegram_id := 7, alert_type := "above", target_price := 1,
                        triggered := true, triggered_at := some 5 }]
    ∧ processAlert c1Store c1Row 2 9 ≠ (c1Store, false)
    ∧ (processAlert c1Store c1Row 2 9).2 = true
    ∧ (processAlert c1Store c1Row 2 9).1 ≠ c1Store := by decide

/-- C1 (amended): for every loop iteration over a loaded untriggered
alert whose predicate is satisfied, the update is unconditional — every
stored row with the alert's id is rewritten to `triggered=true,
triggered_at=now` whatever its current triggered state — and the owner's
notification is sent exactly when the loaded row's notification
preference is not disabled, regardless of whether the update changed the
row. -/
theorem processAlert_unconditional_update (s : Store) (row : AlertRow) (price : ℚ)
    (now : Int)
    (h : shouldTrigger row.alert.alert_type row.alert.target_price price = true) :
    ((processAlert s row price now).2 = true ↔ row.notifications_enabled ≠ some false)
    ∧ ∀ r ∈ s.alerts, r.id = row.alert.id →
        { r with triggered := true, triggered_at := some now } ∈
          (processAlert s row price now).1.alerts := by
  constructor
  · by_cases hn : row.notifications_enabled = some false
    · simp [processAlert, h, hn]
    · simp [processAlert, h, hn]
  · intro r hr hid
    have hmem : ({ r with triggered := true, triggered_at := some now } : PriceAlert) ∈
        s.alerts.map (fun a =>
          if a.id == row.alert.id then { a with triggered := true, triggered_at := some now }
          else a) := by
      have h2 := List.mem_map_of_mem
        (fun a : PriceAlert =>
          if a.id == row.alert.id then { a with triggered := true, triggered_at := some now }
          else a) hr
      simpa [hid] using h2
    by_cases hn : row.notifications_enabled = some false
    · simpa [processAlert, h, hn] using hmem
    · simpa [processAlert, h, hn] using hmem

/-- C1 amended witness at a concrete input. -/
theorem processAlert_unconditional_update_witness :
    shouldTrigger c1Row.alert.alert_type c1Row.alert.target_price 2 = true
    ∧ (((processAlert c1Store c1Row 2 9).2 = true ↔ c1Row.notifications_enabled ≠ some false)
       ∧ ∀ r ∈ c1Store.alerts, r.id = c1Row.alert.id →
          { r with triggered := true, triggered_at := some 9 } ∈
            (processAlert c1Store c1Row 2 9).1.alerts) :=
  ⟨by decide, processAlert_unconditional_update c1Store c1Row 2 9 (by decide)⟩

/-! ## Claim C3 — expired link codes are rejected untouched -/

/-- C3: when the identity holding the link code has a stored expiry in
the past, verification fails with the expired error whatever signature
is supplied — the recovery function is never consulted — and the store
is returned unchanged: the bound wallet stays unset and the code and its
expiry are not cleared. -/
theorem verifyLink_expired_rejected (recover : String → String → Option String)
    (now : Int) (s : Store) (code walletAddress signature : String) (u : TgUser)
    (e : Int)
    (hcode : code ≠ "") (haddr : walletAddress ≠ "") (hsig : signature ≠ "")
    (hone : s.users.filter (fun v => v.link_code == some code) = [u])
    (hexp : u.link_code_expires = some e) (hpast : e < now) :
    verifyLink recover now s code walletAddress signature = (s, .expired) := by
  have hfind : findUserByLinkCode s.users code = some u := by
    unfold findUserByLinkCode
    rw [hone]
  unfold verifyLink
  rw [if_neg (by simp [hcode, haddr, hsig])]
  rw [hfind]
  simp [linkCodeExpired, hexp, hpast]

/-- C3 witness at a concrete input. -/
theorem verifyLink_expired_rejected_witness :
    verifyLink (fun _ _ => some "0xab") 100
      { users := [{ telegram_id := 3, link_code := some "LC", link_code_expires := some 50 }] }
      "LC" "0xab" "sig"
      = ({ users := [{ telegram_id := 3, link_code := some "LC", link_code_expires := some 50 }] },
         .expired) :=
  verifyLink_expired_rejected (fun _ _ => some "0xab") 100
    { users := [{ telegram_id := 3, link_code := some "LC", link_code_expires := some 50 }] }
    "LC" "0xab" "sig"
    { telegram_id := 3, link_code := some "LC", link_code_expires := some 50 }
    50 (by decide) (by decide) (by decide) (by decide) (by decide) (by decide)

/-! ## Helper lemmas about updateUser and filters -/

/-- After mapping a keyed row update over the table, no row satisfies the
filter any more, when the only row that satisfied it carries the updated
key and the update makes every row fail the filter. -/
theorem filter_eq_nil_after_update (users : List TgUser) (u : TgUser)
    (p : TgUser → Bool) (f : TgUser → TgUser)
    (hone : users.filter p = [u])
    (hf : ∀ v, p (f v) = false) :
    (users.map (fun v => if v.telegram_id == u.telegram_id then f v else v)).filter p
      = [] := by
  rw [List.filter_eq_nil_iff]
  intro a ha
  rw [List.mem_map] at ha
  obtain ⟨v, hv, hva⟩ := ha
  by_cases hid : (v.telegram_id == u.telegram_id) = true
  · rw [if_pos hid] at hva
    subst hva
    simp [hf]
  · rw [if_neg hid] at hva
    subst hva
    intro hp
    have hmem : v ∈ users.filter p := List.mem_filter.mpr ⟨hv, hp⟩
    rw [hone] at hmem
    simp only [List.mem_singleton] at hmem
    subst hmem
    simp at hid

/-- Every row of the updated table is either the update of a matching
row or an unchanged non-matching row. -/
theorem mem_updateUser (s : Store) (tid : Int) (f : TgUser → TgUser) (v : TgUser)
    (hv : v ∈ (updateUser s tid f).users) :
    (∃ w ∈ s.users, (w.telegram_id == tid) = true ∧ v = f w)
    ∨ (v ∈ s.users ∧ (v.telegram_id == tid) = false) := by
  unfold updateUser at hv
  simp only [List.mem_map] at hv
  obtain ⟨w, hw, hwe⟩ := hv
  by_cases hid : (w.telegram_id == tid) = true
  · rw [if_pos hid] at hwe
    exact Or.inl ⟨w, hw, hid, hwe.symm⟩
  · rw [if_neg hid] at hwe
    subst hwe
    exact Or.inr ⟨hw, by simpa using hid⟩

/-- The verify-link success path in one equation: when exactly one
identity holds the code, the code is not expired, and recovery yields an
address agreeing with the claimed one case-insensitively, the handler
performs the single keyed update binding the lower-cased claimed address
and clearing the code and expiry, and reports ok. -/
theorem verifyLink_success_eq (recover : String → String → Option String)
    (now : Int) (s : Store) (code walletAddress signature : String) (u : TgUser)
    (rec : String)
    (hcode : code ≠ "") (haddr : walletAddress ≠ "") (hsig : signature ≠ "")
    (hone : s.users.filter (fun v => v.link_code == some code) = [u])
    (hexp : linkCodeExpired u now = false)
    (hrec1 : recover (challengeMessage code) signature = some rec)
    (hrec2 : jsToLowerCase rec = jsToLowerCase walletAddress) :
    verifyLink recover now s code walletAddress signature =
      (updateUser s u.telegram_id (fun v =>
        { v with wallet_address := some (jsToLowerCase walletAddress)
                 linked_at := some now
                 link_code := none
                 link_code_expires := none }), .ok) := by
  have hfind : findUserByLinkCode s.users code = some u := by
    unfold findUserByLinkCode
    rw [hone]
  unfold verifyLink
  rw [if_neg (by simp [hcode, haddr, hsig])]
  rw [hfind]
  simp only [hexp, Bool.false_eq_true, if_false]
  rw [hrec1]
  dsimp only
  rw [if_neg (by simp [hrec2])]

/-! ## Claim C2 — link tokens are single-use -/

/-- C2: calling verify twice with the same code and a valid matching
signature succeeds exactly once.  The first call reports ok and its
single keyed update both binds the lower-cased wallet and clears the
code; the second call fails with the not-found error because no identity
still holds the code. -/
theorem verifyLink_single_use (recover : String → String → Option String)
    (now now2 : Int) (s : Store) (code walletAddress signature : String) (u : TgUser)
    (rec : String)
    (hcode : code ≠ "") (haddr : walletAddress ≠ "") (hsig : signature ≠ "")
    (hone : s.users.filter (fun v => v.link_code == some code) = [u])
    (hexp : linkCodeExpired u now = false)
    (hrec1 : recover (challengeMessage code) signature = some rec)
    (hrec2 : jsToLowerCase rec = jsToLowerCase walletAddress) :
    (verifyLink recover now s code walletAddress signature).2 = .ok
    ∧ (∀ v ∈ (verifyLink recover now s code walletAddress signature).1.users,
        v.telegram_id = u.telegram_id →
          v.wallet_address = some (jsToLowerCase walletAddress) ∧ v.link_code = none)
    ∧ verifyLink recover now2 (verifyLink recover now s code walletAddress signature).1
        code walletAddress signature
      = ((verifyLink recover now s code walletAddress signature).1, .notFound) := by
  have hstep := verifyLink_success_eq recover now s code walletAddress signature u rec
    hcode haddr hsig hone hexp hrec1 hrec2
  refine ⟨by rw [hstep], ?_, ?_⟩
  · intro v hv hvid
    rw [hstep] at hv
    rcases mem_updateUser _ _ _ _ hv with ⟨w, _, _, hvw⟩ | ⟨_, hne⟩
    · subst hvw
      exact ⟨rfl, rfl⟩
    · rw [hvid] at hne
      simp at hne
  · rw [hstep]
    have hnil : ((updateUser s u.telegram_id (fun v =>
        { v with wallet_address := some (jsToLowerCase walletAddress)
                 linked_at := some now
                 link_code := none
                 link_code_expires := none })).users).filter
          (fun v => v.link_code == some code) = [] := by
      unfold updateUser
      exact filter_eq_nil_after_update s.users u _ _ hone (fun v => by simp)
    have hfind2 : findUserByLinkCode (updateUser s u.telegram_id (fun v =>
        { v with wallet_address := some (jsToLowerCase walletAddress)
                 linked_at := some now
                 link_code := none
                 link_code_expires := none })).users code = none := by
      unfold findUserByLinkCode
      rw [hnil]
    unfold verifyLink
    rw [if_neg (by simp [hcode, haddr, hsig])]
    rw [hfind2]

/-- C2 witness at a concrete input. -/
theorem verifyLink_single_use_witness :
    (verifyLink (fun _ _ => some "0xAB") 100
        { users := [{ telegram_id := 3, link_code := some "LC",
                      link_code_expires := some 200 }] }
        "LC" "0xab" "sig").2 = .ok
    ∧ (∀ v ∈ (verifyLink (fun _ _ => some "0xAB") 100
        { users := [{ telegram_id := 3, link_code := some "LC",
                      link_code_expires := some 200 }] }
        "LC" "0xab" "sig").1.users,
        v.telegram_id = 3 →
          v.wallet_address = some (jsToLowerCase "0xab") ∧ v.link_code = none)
    ∧ verifyLink (fun _ _ => some "0xAB") 150
        (verifyLink (fun _ _ => some "0xAB") 100
          { users := [{ telegram_id := 3, link_code := some "LC",
                        link_code_expires := some 200 }] }
          "LC" "0xab" "sig").1
        "LC" "0xab" "sig"
      = ((verifyLink (fun _ _ => some "0xAB") 100
          { users := [{ telegram_id := 3, link_code := some "LC",
                        link_code_expires := some 200 }] }
          "LC" "0xab" "sig").1, .notFound) :=
  verifyLink_single_use (fun _ _ => some "0xAB") 100 150
    { users := [{ telegram_id := 3, link_code := some "LC",
                  link_code_expires := some 200 }] }
    "LC" "0xab" "sig"
    { telegram_id := 3, link_code := some "LC", link_code_expires := some 200 }
    "0xAB" (by decide) (by decide) (by decide) (by decide) (by decide)
    (by decide) (by decide)

/-! ## Claim C8 — case-insensitive comparison, lower-cased binding -/

/-- C8: the recovered signer is compared with the claimed address
case-insensitively, and on success the one keyed update stores the
lower-cased claimed address, stamps the link timestamp, and clears the
code and its expiry together. -/
theorem verifyLink_case_insensitive_binding
    (recover : String → String → Option String)
    (now : Int) (s : Store) (code walletAddress signature : String) (u : TgUser)
    (rec : String)
    (hcode : code ≠ "") (haddr : walletAddress ≠ "") (hsig : signature ≠ "")
    (hone : s.users.filter (fun v => v.link_code == some code) = [u])
    (hexp : linkCodeExpired u now = false)
    (hrec1 : recover (challengeMessage code) signature = some rec)
    (hrec2 : jsToLowerCase rec = jsToLowerCase walletAddress) :
    (verifyLink recover now s code walletAddress signature).2 = .ok
    ∧ ∀ v ∈ (verifyLink recover now s code walletAddress signature).1.users,
        v.telegram_id = u.telegram_id →
          v.wallet_address = some (jsToLowerCase walletAddress)
          ∧ v.linked_at = some now
          ∧ v.link_code = none
          ∧ v.link_code_expires = none := by
  have hstep := verifyLink_success_eq recover now s code walletAddress signature u rec
    hcode haddr hsig hone hexp hrec1 hrec2
  refine ⟨by rw [hstep], ?_⟩
  intro v hv hvid
  rw [hstep] at hv
  rcases mem_updateUser _ _ _ _ hv with ⟨w, _, _, hvw⟩ | ⟨_, hne⟩
  · subst hvw
    exact ⟨rfl, rfl, rfl, rfl⟩
  · rw [hvid] at hne
    simp at hne

/-- C8 witness at a concrete input with genuinely mixed-case addresses:
the recovered "0xAbC" differs from the claimed "0xaBc" as strings but
agrees case-insensitively; the stored form is the lower-cased claim. -/
theorem verifyLink_case_insensitive_binding_witness :
    (verifyLink (fun _ _ => some "0xAbC") 100
        { users := [{ telegram_id := 4, link_code := some "K",
                      link_code_expires := some 900 }] }
        "K" "0xaBc" "sig").2 = .ok
    ∧ ∀ v ∈ (verifyLink (fun _ _ => some "0xAbC") 100
        { users := [{ telegram_id := 4, link_code := some "K",
                      link_code_expires := some 900 }] }
        "K" "0xaBc" "sig").1.users,
        v.telegram_id = 4 →
          v.wallet_address = some (jsToLowerCase "0xaBc")
          ∧ v.linked_at = some 100
          ∧ v.link_code = none
          ∧ v.link_code_expires = none :=
  verifyLink_case_insensitive_binding (fun _ _ => some "0xAbC") 100
    { users := [{ telegram_id := 4, link_code := some "K",
                  link_code_expires := some 900 }] }
    "K" "0xaBc" "sig"
    { telegram_id := 4, link_code := some "K", link_code_expires := some 900 }
    "0xAbC" (by decide) (by decide) (by decide) (by decide) (by decide)
    (by decide) (by decide)

/-! ## Claim C4 — non-command noise -/

theorem asciiLower_eq_slash (c : Char) (h : asciiLower c = '/') : c = '/' := by
  unfold asciiLower at h
  split at h <;> first | exact absurd h (by decide) | exact h

/-- When the command name does not begin with the prefix character and
the text does not either, the switch reaches its default case and sends
nothing. -/
theorem dispatch_default (ext : BotEnv) (s : Store) (tid : Int) (user : TgUser)
    (cmd args : String) (text : List Char)
    (hcmd : cmd.data.head? ≠ some '/')
    (htext : startsWithChar '/' text = false) :
    dispatch ext s tid user cmd args text = (s, []) := by
  unfold dispatch
  split
  all_goals try exact absurd rfl hcmd
  simp [htext]

/-- C4 counterexample: a plain "hello" from an unseen participant
produces no outbound response, but the invocation does mutate the store
— identity resolution precedes dispatch and lazily inserts the new
identity row. -/
theorem webhook_noise_no_mutation_cex :
    (webhookStep c4Env {} { chat_id := 1, from_id := 1, text := some "hello" }).2 = []
    ∧ (webhookStep c4Env {} { chat_id := 1, from_id := 1, text := some "hello" }).1
        ≠ ({} : Store) := by
  decide

/-- C4 (amended): for every inbound message whose trimmed text does not
begin with the command-prefix character, the webhook produces no
outbound response and performs no store mutation beyond identity
resolution — the whole invocation equals the get-or-create step (which
may insert the identity row on first contact or refresh a changed
display handle) followed by no dispatch effect. -/
theorem webhook_noise_identity_only (ext : BotEnv) (s : Store) (m : InMsg) (t : String)
    (htext : m.text = some t) (hne : t ≠ "")
    (hslash : (jsTrimL t.data).head? ≠ some '/') :
    webhookStep ext s m = ((getOrCreateUser ext s m.from_id m.username).1, []) := by
  unfold webhookStep
  rw [htext]
  dsimp only
  rw [if_neg hne]
  apply dispatch_default
  · rw [parseCommand_eq]
    dsimp only
    cases hL : jsTrimL t.data with
    | nil => simp [beforeSp]
    | cons c cs =>
      rw [hL] at hslash
      simp only [List.head?, Option.some.injEq, ne_eq] at hslash
      by_cases hc : c = ' '
      · simp [beforeSp, hc]
      · simp only [beforeSp, hc, if_false, List.map_cons, List.head?, ne_eq,
          Option.some.injEq]
        intro habs
        exact hslash (asciiLower_eq_slash c habs)
  · cases hL : jsTrimL t.data with
    | nil => rfl
    | cons c cs =>
      rw [hL] at hslash
      simp only [List.head?, Option.some.injEq, ne_eq] at hslash
      simp [startsWithChar, hslash]

/-- C4 amended witness at a concrete input. -/
theorem webhook_noise_identity_only_witness :
    webhookStep c4Env {} { chat_id := 2, from_id := 9, text := some "gm" }
      = ((getOrCreateUser c4Env {} 9 none).1, []) :=
  webhook_noise_identity_only c4Env {} { chat_id := 2, from_id := 9, text := some "gm" }
    "gm" rfl (by decide) (by decide)

/-! ## Claim C9 — referral guard on /start -/

/-- C9: (a) a participant supplying their own referral code on /start
(the lookup by code resolves to the sender themself) leaves the store
entirely unchanged — no referral edge, referrer reference still unset;
(b) a participant whose referrer reference is already set gains no new
referral edge from any /start: a non-zero stored reference short-circuits
the block, and in the residual JavaScript-truthiness case (reference
stored as 0) the insert is rejected by the UNIQUE(referred_telegram_id)
constraint, given the edge recorded when the reference was first set. -/
theorem handleStart_referral_guards (ext : BotEnv) (s : Store) (user : TgUser)
    (args : String) :
    (findUserByReferralCode s.users (jsToUpperCase args) = some user →
      (handleStart ext s user args).1 = s)
    ∧ (∀ r, user.referred_by = some r →
        (∃ e ∈ s.referrals, e.referred_telegram_id = user.telegram_id) →
        (handleStart ext s user args).1.referrals = s.referrals) := by
  constructor
  · intro hself
    unfold handleStart
    dsimp only
    split
    · rw [hself]
      dsimp only
      rw [if_neg (by simp)]
    · rfl
  · intro r hr hedge
    unfold handleStart
    dsimp only
    split
    · cases hfind : findUserByReferralCode s.users (jsToUpperCase args) with
      | none => rfl
      | some referrer =>
        dsimp only
        split
        · show (insertReferral _ _).referrals = s.referrals
          unfold insertReferral
          rw [if_pos ?_]
          · rfl
          · obtain ⟨e0, he0, he0id⟩ := hedge
            exact List.any_eq_true.mpr ⟨e0, he0, by simp [he0id]⟩
        · rfl
    · rfl

/-- C9 witness at concrete inputs, exercising both guards. -/
theorem handleStart_referral_guards_witness :
    (handleStart c9Env c9StoreA c9UserA "ab").1 = c9StoreA
    ∧ (handleStart c9Env c9StoreB c9UserB "AB").1.referrals = c9StoreB.referrals :=
  ⟨(handleStart_referral_guards c9Env c9StoreA c9UserA "ab").1 (by decide),
   (handleStart_referral_guards c9Env c9StoreB c9UserB "AB").2 0 rfl (by decide)⟩

/-! ## Claim C7 — the 5-active-alert quota -/

/-- Removing one row by id from a table with pairwise-distinct ids
removes exactly one row from any filtered count the removed row
contributes to. -/
theorem length_filter_after_remove (l : List PriceAlert) (a0 : PriceAlert)
    (q : PriceAlert → Bool)
    (hmem : a0 ∈ l) (hq : q a0 = true)
    (hnd : (l.map (fun a => a.id)).Nodup) :
    ((l.filter (fun a => !(a.id == a0.id))).filter q).length
      = (l.filter q).length - 1 := by
  induction l with
  | nil => cases hmem
  | cons x xs ih =>
    rw [List.map_cons, List.nodup_cons] at hnd
    obtain ⟨hxid, hnd'⟩ := hnd
    by_cases hid : (x.id == a0.id) = true
    · have hxa : a0 = x := by
        rcases List.mem_cons.mp hmem with h | h
        · exact h
        · exfalso
          apply hxid
          have hix : x.id = a0.id := by simpa using hid
          rw [hix]
          exact List.mem_map_of_mem (fun a => a.id) h
      have hxs : xs.filter (fun a => !(a.id == a0.id)) = xs := by
        apply List.filter_eq_self.mpr
        intro b hb
        have hbne : ¬ b.id = a0.id := by
          intro hbid
          apply hxid
          have hix : x.id = a0.id := by simpa using hid
          rw [hix, ← hbid]
          exact List.mem_map_of_mem (fun a => a.id) hb
        simp [hbne]
      rw [List.filter_cons, if_neg (by simp [hid]), hxs,
        List.filter_cons, if_pos (by rw [← hxa]; exact hq)]
      simp
    · have hid' : (x.id == a0.id) = false := by simpa using hid
      have hax : ¬ a0 = x := by
        intro h
        rw [h] at hid'
        simp at hid'
      have hmem' : a0 ∈ xs := by
        rcases List.mem_cons.mp hmem with h | h
        · exact absurd h hax
        · exact h
      have hpos : 0 < (xs.filter q).length := by
        have : a0 ∈ xs.filter q := List.mem_filter.mpr ⟨hmem', hq⟩
        exact List.length_pos.mpr (List.ne_nil_of_mem this)
      have hih := ih hmem' hnd'
      by_cases hqx : q x = true
      · simp only [List.filter_cons, hid', Bool.not_false, if_true, hqx,
          List.length_cons]
        omega
      · have hqx' : q x = false := by simpa using hqx
        simp only [List.filter_cons, hid', Bool.not_false, if_true, hqx',
          Bool.false_eq_true, if_false]
        exact hih

/-- Deleting an active alert of the owner lowers the owner's active
count by exactly one. -/
theorem countActiveAlerts_after_remove (s : Store) (tid : Int) (a0 : PriceAlert)
    (hmem : a0 ∈ s.alerts) (hown : a0.telegram_id = tid) (hact : a0.triggered = false)
    (hnd : (s.alerts.map (fun a => a.id)).Nodup) :
    countActiveAlerts (removeAlertById s a0.id) tid = countActiveAlerts s tid - 1 := by
  unfold countActiveAlerts removeAlertById
  exact length_filter_after_remove s.alerts a0 _ hmem (by simp [hown, hact]) hnd

/-- C7: a participant with exactly 5 active (untriggered) alerts is
denied a well-formed 6th alert with the quota notice and no row is
inserted; after deleting one of the 5, the same well-formed request is
accepted and appends exactly the new row. -/
theorem alert_quota_boundary (ext : BotEnv) (s : Store) (tid : Int)
    (args p0 p1 : String) (rest : List String) (price : ℚ) (a0 : PriceAlert)
    (hsplit : jsSplitSp args = p0 :: p1 :: rest)
    (hty : jsToLowerCase p0 = "above" ∨ jsToLowerCase p0 = "below")
    (hprice : parseFloatQ p1 = some price)
    (hcount : countActiveAlerts s tid = 5)
    (hmem : a0 ∈ s.alerts) (hown : a0.telegram_id = tid) (hact : a0.triggered = false)
    (hnd : (s.alerts.map (fun a => a.id)).Nodup) :
    handleAlert ext s tid args = (s, [Reply.maxAlerts])
    ∧ handleAlert ext (removeAlertById s a0.id) tid args
        = ({ removeAlertById s a0.id with
              alerts := (removeAlertById s a0.id).alerts ++
                [{ id := ext.newAlertId, telegram_id := tid,
                   alert_type := jsToLowerCase p0, target_price := price,
                   triggered := false, triggered_at := none, created_at := ext.now }] },
           [Reply.alertSet (jsToLowerCase p0) price]) := by
  have hty' : (jsToLowerCase p0 ≠ "above" && jsToLowerCase p0 ≠ "below") = false := by
    rcases hty with h | h <;> simp [h]
  have hcount4 : countActiveAlerts (removeAlertById s a0.id) tid = 4 := by
    rw [countActiveAlerts_after_remove s tid a0 hmem hown hact hnd, hcount]
  constructor
  · unfold handleAlert
    rw [hsplit]
    dsimp only
    rw [hprice]
    dsimp only
    rw [if_neg (by rw [hty']; simp), if_pos (by rw [hcount])]
  · unfold handleAlert
    rw [hsplit]
    dsimp only
    rw [hprice]
    dsimp only
    rw [if_neg (by rw [hty']; simp), if_neg (by rw [hcount4]; omega)]

/-- C7 witness at a concrete input. -/
theorem alert_quota_boundary_witness :
    handleAlert c7Env c7Store 10 "above 2" = (c7Store, [Reply.maxAlerts])
    ∧ handleAlert c7Env (removeAlertById c7Store c7Alert.id) 10 "above 2"
        = ({ removeAlertById c7Store c7Alert.id with
              alerts := (removeAlertById c7Store c7Alert.id).alerts ++
                [{ id := c7Env.newAlertId, telegram_id := 10,
                   alert_type := jsToLowerCase "above", target_price := 2,
                   triggered := false, triggered_at := none, created_at := c7Env.now }] },
           [Reply.alertSet (jsToLowerCase "above") 2]) :=
  alert_quota_boundary c7Env c7Store 10 "above 2" "above" "2" [] 2 c7Alert
    (by decide) (Or.inl (by decide)) (by decide) (by decide) (by decide)
    (by decide) (by decide) (by decide)

/-! ## Claim C10 — the 10-entry watchlist quota -/

/-- C10: a participant whose watchlist already holds 10 entries is
denied by the quota notice with no store write for any well-formed
address — including an address already on their watchlist, where the
upsert (had it run) would only refresh the nickname of the existing
unique (owner, address) row rather than add an 11th entry; the count
check runs first and does not look at membership. -/
theorem watch_quota_denies_existing (s : Store) (tid : Int) (args address : String)
    (restParts : List String)
    (hsplit : jsSplitSp args = address :: restParts)
    (hstart : jsStartsWith address "0x" = true) (hlen : address.length = 42)
    (hcount : countWatchlist s tid = 10)
    (_hmem : ∃ w ∈ s.watchlist, w.telegram_id = tid ∧
            w.wallet_address = jsToLowerCase address) :
    handleWatch s tid args = (s, [Reply.maxWatch]) := by
  unfold handleWatch
  rw [hsplit]
  dsimp only
  rw [if_neg (by simp [hstart, hlen]), if_pos (by rw [hcount])]

/-- C10 witness at a concrete input. -/
theorem watch_quota_denies_existing_witness :
    handleWatch c10Store 1 c10Addr = (c10Store, [Reply.maxWatch]) :=
  watch_quota_denies_existing c10Store 1 c10Addr c10Addr []
    (by decide) (by decide) (by decide) (by decide) (by decide)
